import Mathlib

/-!
Shallow embedding of the paginated product-listing page in src/app/page.js.

The page consists of three parts, each embedded below from the source:
- fetchProducts: builds the request URL from the page number
  (skip = (page - 1) * 20, limit = 20), runs it against the network,
  checks the HTTP status, parses the body, and returns
  { products, hasMore := length == 20 }; every failure is re-thrown wrapped
  in a message starting with "Error fetching products: ".
- ProductsPage (the page controller): state { loading, products, error,
  hasMore }, initialised to { true, [], null, true }; loadProducts sets
  loading, awaits the fetch, on success conditionally clears hasMore and
  stores the products, on failure stores a fixed error string, and finally
  clears loading.  The render dispatch shows the skeleton while loading,
  else the error text when error is set, else the product grid with the
  pagination control.
- Pagination: from (currentPage, hasMore) produces an optional previous-page
  link, a fixed "Page n of 10" label, and an optional next-page link.

The network is modelled as a function from requests to transport outcomes,
so that fetchProducts stays a pure function of (backend, page).
-/

namespace ProductsPageApp

/-- A product record as consumed by the page: the fields the grid renders
(id, title, price, category, images). -/
structure Product where
  id : Nat
  title : String
  price : Int
  category : String
  images : List String

/-- The value fetchProducts resolves with on success: the parsed product
sequence and the has-more flag. -/
structure FetchResult where
  products : List Product
  hasMore : Bool

/-- An HTTP response as fetchProducts observes it: the ok flag, the numeric
status, the status text, and the outcome of parsing the body as a JSON array
of products (an Except.error carries the parse-error message that res.json()
would reject with). -/
structure HttpResponse where
  ok : Bool
  status : Nat
  statusText : String
  body : Except String (List Product)

/-- The transport-level outcome of one request: either a response arrived, or
fetch itself rejected with a network-error message. -/
inductive FetchOutcome where
  | response (res : HttpResponse)
  | networkError (msg : String)

/-- An HTTP GET request, identified by its URL. -/
structure Request where
  url : String

/-- A backend: what the network returns for each request.  An unchanged
backend is one and the same function. -/
abbrev Backend := Request → FetchOutcome

/-- The offset computed at the top of fetchProducts: skip = (page - 1) * 20. -/
def skipFor (page : Nat) : Nat := (page - 1) * 20

/-- The URL string interpolated in the fetch call of fetchProducts. -/
def productsURL (skip : Nat) : String :=
  "https://next-ecommerce-api.vercel.app/products?skip=" ++ toString skip
    ++ "&limit=20"

/-- The GET request fetchProducts issues for a given page. -/
def fetchRequest (page : Nat) : Request :=
  { url := productsURL (skipFor page) }

/-- The body of the try block of fetchProducts: if the response is not ok,
throw an error carrying the status and status text; otherwise parse the body
and return { products := data, hasMore := data.length == 20 }.  A network
rejection or a body-parse rejection surfaces as the underlying message. -/
def tryFetch (outcome : FetchOutcome) : Except String FetchResult :=
  match outcome with
  | .networkError msg => .error msg
  | .response res =>
    if res.ok = false then
      .error ("Failed to fetch products: " ++ toString res.status ++ " "
        ++ res.statusText)
    else
      match res.body with
      | .error msg => .error msg
      | .ok data => .ok { products := data, hasMore := data.length == 20 }

/-- fetchProducts: compute the request for the page, run it against the
backend, and re-throw any error of the try block wrapped as
"Error fetching products: " followed by the underlying message. -/
def fetchProducts (backend : Backend) (page : Nat) :
    Except String FetchResult :=
  match tryFetch (backend (fetchRequest page)) with
  | .ok r => .ok r
  | .error msg => .error ("Error fetching products: " ++ msg)

/-- The fixed user-facing error string set by the catch branch of
loadProducts. -/
def errorMessage : String := "Failed to load products. Please try again later."

/-- The state owned by ProductsPage: loading, products, error, hasMore. -/
structure PageState where
  loading : Bool
  products : List Product
  error : Option String
  hasMore : Bool

/-- The initial state of ProductsPage on mount:
useState(true), useState([]), useState(null), useState(true). -/
def initialState : PageState :=
  { loading := true, products := [], error := none, hasMore := true }

/-- The first statement of loadProducts, run before the fetch suspends:
setLoading(true).  No other state field is written here; in particular the
error field is left as it was. -/
def startLoad (s : PageState) : PageState := { s with loading := true }

/-- The success branch of loadProducts: if page > 10 or the fetch reported no
more data, setHasMore(false); then setProducts(fetched); finally
setLoading(false). -/
def applySuccess (page : Nat) (r : FetchResult) (s : PageState) : PageState :=
  { s with
      hasMore := if page > 10 ∨ r.hasMore = false then false else s.hasMore
      products := r.products
      loading := false }

/-- The catch branch of loadProducts followed by the finally block:
setError(fixed message); setLoading(false). -/
def applyFailure (s : PageState) : PageState :=
  { s with error := some errorMessage, loading := false }

/-- One whole loadProducts cycle, given the outcome the awaited
fetchProducts call settled with. -/
def loadProducts (page : Nat) (outcome : Except String FetchResult)
    (s : PageState) : PageState :=
  match outcome with
  | .ok r => applySuccess page r (startLoad s)
  | .error _ => applyFailure (startLoad s)

/-- What the Pagination component renders: an optional previous-page link
href, the fixed label, and an optional next-page link href. -/
structure PaginationView where
  prevLink : Option String
  label : String
  nextLink : Option String

/-- The Pagination component: pageNum = parseInt(currentPage); a previous
link to pageNum - 1 exactly when pageNum > 1; the static label
"Page currentPage of 10"; a next link to pageNum + 1 exactly when hasMore. -/
def Pagination (currentPage : Nat) (hasMore : Bool) : PaginationView :=
  { prevLink :=
      if currentPage > 1 then some ("/?page=" ++ toString (currentPage - 1))
      else none
    label := "Page " ++ toString currentPage ++ " of 10"
    nextLink :=
      if hasMore then some ("/?page=" ++ toString (currentPage + 1))
      else none }

/-- The view ProductsPage returns: the skeleton placeholder, the error
paragraph, or the product grid together with the pagination control. -/
inductive View where
  | skeleton
  | errorText (msg : String)
  | grid (products : List Product) (pg : PaginationView)

/-- The render dispatch of ProductsPage: the skeleton while loading, else
the error paragraph when error is set, else the grid with Pagination. -/
def renderPage (page : Nat) (s : PageState) : View :=
  if s.loading then .skeleton
  else
    match s.error with
    | some msg => .errorText msg
    | none => .grid s.products (Pagination page s.hasMore)

/-- Whether the skeleton view is the one rendered. -/
def viewIsSkeleton : View → Bool
  | .skeleton => true
  | _ => false

/-- Whether the error paragraph is the one rendered. -/
def viewIsError : View → Bool
  | .errorText _ => true
  | _ => false

/-- Whether the product grid is the one rendered. -/
def viewIsGrid : View → Bool
  | .grid _ _ => true
  | _ => false

/-- The states the page controller can be in: the mount state, a state with
loading freshly set (the suspension point of a load cycle), and the state
after a whole load cycle. -/
inductive Reachable : PageState → Prop where
  | init : Reachable initialState
  | start (s : PageState) : Reachable s → Reachable (startLoad s)
  | load (s : PageState) (page : Nat) (outcome : Except String FetchResult) :
      Reachable s → Reachable (loadProducts page outcome s)

/-- Claim C1: for every page number page >= 1, fetchProducts computes the
request offset as skip = (page - 1) * 20 and issues the HTTP GET with query
parameters skip and limit=20. -/
theorem claim_C1 (page : Nat) (hp : 1 ≤ page) :
    skipFor page = (page - 1) * 20 ∧
    (fetchRequest page).url =
      "https://next-ecommerce-api.vercel.app/products?skip="
        ++ toString ((page - 1) * 20) ++ "&limit=20" :=
  ⟨rfl, rfl⟩

/-- Witness for claim C1 at page 3: skip is 40 and the URL carries it. -/
theorem claim_C1_witness :
    skipFor 3 = (3 - 1) * 20 ∧
    (fetchRequest 3).url =
      "https://next-ecommerce-api.vercel.app/products?skip="
        ++ toString ((3 - 1) * 20) ++ "&limit=20" :=
  claim_C1 3 (by decide)

/-- Claim C2: for every successful response whose body parses to a product
sequence of length at most 20, fetchProducts returns exactly that sequence
together with hasMore, and hasMore is true if and only if the length is
exactly 20.  The response carries no total-count field at all, so hasMore is
derived from the length alone. -/
theorem claim_C2 (backend : Backend) (page : Nat) (res : HttpResponse)
    (data : List Product)
    (hres : backend (fetchRequest page) = .response res)
    (hok : res.ok = true) (hbody : res.body = .ok data)
    (hlen : data.length ≤ 20) :
    fetchProducts backend page =
      .ok { products := data, hasMore := data.length == 20 } ∧
    ((data.length == 20) = true ↔ data.length = 20) := by
  constructor
  · simp [fetchProducts, tryFetch, hres, hok, hbody]
  · exact beq_iff_eq

/-- Witness for claim C2: a backend answering with an empty product list;
fetchProducts returns it with hasMore false. -/
theorem claim_C2_witness :
    fetchProducts
      (fun _ => .response ⟨true, 200, "OK", .ok []⟩) 1 =
      .ok { products := [], hasMore := ([] : List Product).length == 20 } ∧
    ((([] : List Product).length == 20) = true ↔
      ([] : List Product).length = 20) :=
  claim_C2 (fun _ => .response ⟨true, 200, "OK", .ok []⟩) 1
    ⟨true, 200, "OK", .ok []⟩ [] rfl rfl rfl (by decide)

/-- Claim C3: after a successful fetch, hasMore is false whenever
page > 10, regardless of what the fetch reported; and for page <= 10 with
the fetch reporting more data, hasMore is kept true. -/
theorem claim_C3 (s : PageState) (page : Nat) (r : FetchResult) :
    (page > 10 → (loadProducts page (.ok r) s).hasMore = false) ∧
    (page ≤ 10 → r.hasMore = true → s.hasMore = true →
      (loadProducts page (.ok r) s).hasMore = true) := by
  constructor
  · intro h
    simp [loadProducts, applySuccess, startLoad, h]
  · intro hle hr hs
    have h1 : ¬ page > 10 := by omega
    simp [loadProducts, applySuccess, startLoad, h1, hr, hs]

/-- Witness for claim C3: on page 11 a full page still forces hasMore
false; on page 2 a full page keeps hasMore true. -/
theorem claim_C3_witness :
    (loadProducts 11 (.ok ⟨[], true⟩) initialState).hasMore = false ∧
    (loadProducts 2 (.ok ⟨[], true⟩) initialState).hasMore = true :=
  ⟨(claim_C3 initialState 11 ⟨[], true⟩).1 (by decide),
   (claim_C3 initialState 2 ⟨[], true⟩).2 (by decide) rfl rfl⟩

/-- Claim C4: on every fetch failure the controller sets error to the fixed
string (whatever the underlying message was), sets loading to false, leaves
products unchanged, and the next render shows only the error text and no
product grid. -/
theorem claim_C4 (s : PageState) (page : Nat) (msg : String) :
    (loadProducts page (.error msg) s).error = some errorMessage ∧
    (loadProducts page (.error msg) s).loading = false ∧
    (loadProducts page (.error msg) s).products = s.products ∧
    ∀ p : Nat, renderPage p (loadProducts page (.error msg) s) =
      .errorText errorMessage := by
  refine ⟨rfl, rfl, rfl, fun p => ?_⟩
  simp [renderPage, loadProducts, applyFailure, startLoad]

/-- Claim C5 fails on the code: loadProducts never writes error back to
null.  Concretely: after a failed load of page 1 the error is set; the
transition into loading for page 2 (setLoading(true)) leaves it set; even a
later successful load of page 2 leaves it set, so the page still renders the
error text instead of the grid. -/
theorem claim_C5_bug :
    initialState.error = none ∧
    (loadProducts 1 (.error "network down") initialState).error
      = some errorMessage ∧
    (startLoad (loadProducts 1 (.error "network down") initialState)).error
      = some errorMessage ∧
    (loadProducts 2 (.ok ⟨[], true⟩)
        (loadProducts 1 (.error "network down") initialState)).error
      = some errorMessage ∧
    renderPage 2 (loadProducts 2 (.ok ⟨[], true⟩)
        (loadProducts 1 (.error "network down") initialState))
      = .errorText errorMessage :=
  ⟨rfl, rfl, rfl, rfl, rfl⟩

/-- Claim C6: in every reachable state exactly one of the three views is
the active one, and which one it is follows the three conditions: the
skeleton is rendered exactly when loading, the error text exactly when not
loading and error is set, the product grid exactly when not loading and no
error is set. -/
theorem claim_C6 (page : Nat) (s : PageState) (hs : Reachable s) :
    (viewIsSkeleton (renderPage page s) = true ↔ s.loading = true) ∧
    (viewIsError (renderPage page s) = true ↔
      (s.loading = false ∧ s.error ≠ none)) ∧
    (viewIsGrid (renderPage page s) = true ↔
      (s.loading = false ∧ s.error = none)) ∧
    (viewIsSkeleton (renderPage page s) || viewIsError (renderPage page s)
      || viewIsGrid (renderPage page s)) = true ∧
    (viewIsSkeleton (renderPage page s) && viewIsError (renderPage page s))
      = false ∧
    (viewIsSkeleton (renderPage page s) && viewIsGrid (renderPage page s))
      = false ∧
    (viewIsError (renderPage page s) && viewIsGrid (renderPage page s))
      = false := by
  obtain ⟨l, ps, e, hm⟩ := s
  cases l <;> cases e <;>
    simp [renderPage, viewIsSkeleton, viewIsError, viewIsGrid]

/-- Witness for claim C6 at the initial (mount) state. -/
theorem claim_C6_witness :
    (viewIsSkeleton (renderPage 1 initialState) = true ↔
      initialState.loading = true) ∧
    (viewIsError (renderPage 1 initialState) = true ↔
      (initialState.loading = false ∧ initialState.error ≠ none)) ∧
    (viewIsGrid (renderPage 1 initialState) = true ↔
      (initialState.loading = false ∧ initialState.error = none)) ∧
    (viewIsSkeleton (renderPage 1 initialState)
      || viewIsError (renderPage 1 initialState)
      || viewIsGrid (renderPage 1 initialState)) = true ∧
    (viewIsSkeleton (renderPage 1 initialState)
      && viewIsError (renderPage 1 initialState)) = false ∧
    (viewIsSkeleton (renderPage 1 initialState)
      && viewIsGrid (renderPage 1 initialState)) = false ∧
    (viewIsError (renderPage 1 initialState)
      && viewIsGrid (renderPage 1 initialState)) = false :=
  claim_C6 1 initialState Reachable.init

/-- Claim C7: Pagination renders the previous link to currentPage - 1
exactly when currentPage > 1, the next link to currentPage + 1 exactly when
hasMore, and always the static label "Page currentPage of 10". -/
theorem claim_C7 (currentPage : Nat) (hasMore : Bool) :
    ((Pagination currentPage hasMore).prevLink ≠ none ↔ currentPage > 1) ∧
    (Pagination currentPage hasMore).prevLink =
      (if currentPage > 1 then
        some ("/?page=" ++ toString (currentPage - 1)) else none) ∧
    ((Pagination currentPage hasMore).nextLink ≠ none ↔ hasMore = true) ∧
    (Pagination currentPage hasMore).nextLink =
      (if hasMore then
        some ("/?page=" ++ toString (currentPage + 1)) else none) ∧
    (Pagination currentPage hasMore).label =
      "Page " ++ toString currentPage ++ " of 10" := by
  cases hasMore <;> by_cases h : currentPage > 1 <;>
    simp [Pagination, h]

/-- Claim C8: fetchProducts never returns normally on failure: a non-ok
response fails with a wrapped message carrying the status and the status
text; a network rejection or a body-parse rejection fails with a wrapped
message carrying the underlying cause. -/
theorem claim_C8 (backend : Backend) (page : Nat) :
    (∀ res : HttpResponse,
      backend (fetchRequest page) = .response res → res.ok = false →
      fetchProducts backend page =
        .error ("Error fetching products: "
          ++ ("Failed to fetch products: " ++ toString res.status ++ " "
            ++ res.statusText))) ∧
    (∀ msg : String,
      backend (fetchRequest page) = .networkError msg →
      fetchProducts backend page =
        .error ("Error fetching products: " ++ msg)) ∧
    (∀ (res : HttpResponse) (msg : String),
      backend (fetchRequest page) = .response res → res.ok = true →
      res.body = .error msg →
      fetchProducts backend page =
        .error ("Error fetching products: " ++ msg)) := by
  refine ⟨fun res hres hok => ?_, fun msg hmsg => ?_,
    fun res msg hres hok hbody => ?_⟩
  · simp [fetchProducts, tryFetch, hres, hok]
  · simp [fetchProducts, tryFetch, hmsg]
  · simp [fetchProducts, tryFetch, hres, hok, hbody]

/-- Witness for claim C8: a backend answering 500 makes fetchProducts fail
with the wrapped status message. -/
theorem claim_C8_witness :
    fetchProducts
      (fun _ => .response ⟨false, 500, "Internal Server Error", .ok []⟩) 1 =
      .error ("Error fetching products: "
        ++ ("Failed to fetch products: " ++ toString 500 ++ " "
          ++ "Internal Server Error")) :=
  (claim_C8
    (fun _ => .response ⟨false, 500, "Internal Server Error", .ok []⟩) 1).1
    ⟨false, 500, "Internal Server Error", .ok []⟩ rfl rfl

/-- Claim C9: fetchProducts is deterministic in the page and the backend:
two fetches of the same page against the unchanged backend give identical
results. -/
theorem claim_C9 (backend : Backend) (page : Nat)
    (r1 r2 : Except String FetchResult)
    (h1 : fetchProducts backend page = r1)
    (h2 : fetchProducts backend page = r2) : r1 = r2 :=
  h1.symm.trans h2

/-- Witness for claim C9: two fetches of page 1 against one failing backend
settle with one and the same error value. -/
theorem claim_C9_witness :
    (Except.error ("Error fetching products: " ++ "boom")
      : Except String FetchResult) =
    Except.error ("Error fetching products: " ++ "boom") :=
  claim_C9 (fun _ => .networkError "boom") 1
    (Except.error ("Error fetching products: " ++ "boom"))
    (Except.error ("Error fetching products: " ++ "boom")) rfl rfl

/-- Claim C10: hasMore starts true; setLoading(true) never touches it; no
load cycle ever turns it from false back to true, and whenever it has gone
false every further cycle leaves it false, so the Pagination control never
renders the next link again. -/
theorem claim_C10 :
    initialState.hasMore = true ∧
    (∀ s : PageState, (startLoad s).hasMore = s.hasMore) ∧
    (∀ (s : PageState) (page : Nat)
        (outcome : Except String FetchResult),
      (loadProducts page outcome s).hasMore = true → s.hasMore = true) ∧
    (∀ (s : PageState) (page : Nat)
        (outcome : Except String FetchResult),
      s.hasMore = false → (loadProducts page outcome s).hasMore = false) ∧
    (∀ page : Nat, (Pagination page false).nextLink = none) := by
  refine ⟨rfl, fun s => rfl, ?_, ?_, fun page => rfl⟩
  · intro s page outcome h
    cases outcome with
    | error e => exact h
    | ok r =>
      have h' : (if page > 10 ∨ r.hasMore = false then false
          else s.hasMore) = true := h
      by_cases hc : page > 10 ∨ r.hasMore = false
      · rw [if_pos hc] at h'
        exact absurd h' (by simp)
      · rwa [if_neg hc] at h'
  · intro s page outcome h
    cases outcome with
    | error e => exact h
    | ok r =>
      show (if page > 10 ∨ r.hasMore = false then false
        else s.hasMore) = false
      by_cases hc : page > 10 ∨ r.hasMore = false
      · rw [if_pos hc]
      · rw [if_neg hc]
        exact h

/-- Witness for claim C10: once page 11 has forced hasMore to false, a
later full-page load of page 3 leaves it false, and Pagination renders no
next link. -/
theorem claim_C10_witness :
    initialState.hasMore = true ∧
    (loadProducts 3 (.ok ⟨[], true⟩)
      (loadProducts 11 (.ok ⟨[], true⟩) initialState)).hasMore = false ∧
    (Pagination 3 false).nextLink = none :=
  ⟨claim_C10.1,
   claim_C10.2.2.2.1 (loadProducts 11 (.ok ⟨[], true⟩) initialState) 3
     (.ok ⟨[], true⟩) (by decide),
   claim_C10.2.2.2.2 3⟩

end ProductsPageApp
